import Mathlib

/-!
Verification of the portal-api status-aggregation core
(`app/probes/contract.py`, `app/probes/postgres_probe.py`, `app/server.py`).

Python values flowing through the contract are JSON-like: we embed them as
the inductive type `JVal` and translate each Python function into a Lean
function over `JVal`, keeping Python truthiness (`x or y`), `dict.get`,
`str(...)` conversion and `isinstance` dispatch explicit.  The wall-clock
source `utc_now_iso()` is threaded as an explicit `now : String` parameter.
-/

/-- A JSON-like Python value: `None`, `bool`, `int`, `str`, `list`, `dict`.
Dicts are association lists with string keys (first occurrence wins). -/
inductive JVal where
  | null
  | bool (b : Bool)
  | num (n : Int)
  | str (s : String)
  | arr (elems : List JVal)
  | obj (fields : List (String × JVal))

/-- `isinstance(v, dict)` -/
def JVal.isObj : JVal → Bool
  | JVal.obj _ => true
  | _ => false

/-- First value bound to key `k`, or `None` when absent (Python `d.get(k)`
returns `None` for a missing key, indistinguishable from a stored `None`). -/
def jLookup (k : String) : List (String × JVal) → JVal
  | [] => JVal.null
  | (k', v) :: rest => if k' = k then v else jLookup k rest

/-- `v.get(k)` for dict-valued `v`; `None` otherwise. -/
def jGet (v : JVal) (k : String) : JVal :=
  match v with
  | JVal.obj fields => jLookup k fields
  | _ => JVal.null

/-- Python truthiness of a JSON value. -/
def truthy : JVal → Bool
  | JVal.null => false
  | JVal.bool b => b
  | JVal.num n => n != 0
  | JVal.str s => s != ""
  | JVal.arr l => !l.isEmpty
  | JVal.obj l => !l.isEmpty

/-- Python `x or y` (short-circuit on truthiness, returns an operand). -/
def pyOr (v d : JVal) : JVal := if truthy v then v else d

mutual

/-- Python `repr` of a JSON value (as used by `str` on non-string values). -/
def pyRepr : JVal → String
  | JVal.null => "None"
  | JVal.bool b => if b then "True" else "False"
  | JVal.num n => Int.repr n
  | JVal.str s => "\x27" ++ s ++ "\x27"
  | JVal.arr l => "[" ++ pyReprList l ++ "]"
  | JVal.obj l => "\x7b" ++ pyReprFields l ++ "\x7d"

def pyReprList : List JVal → String
  | [] => ""
  | [x] => pyRepr x
  | x :: y :: rest => pyRepr x ++ ", " ++ pyReprList (y :: rest)

def pyReprFields : List (String × JVal) → String
  | [] => ""
  | [(k, v)] => "\x27" ++ k ++ "\x27: " ++ pyRepr v
  | (k, v) :: f :: rest => "\x27" ++ k ++ "\x27: " ++ pyRepr v ++ ", " ++ pyReprFields (f :: rest)

end

/-- Python `str(v)`: identity on strings, `repr` otherwise. -/
def pyStr (v : JVal) : String :=
  match v with
  | JVal.str s => s
  | _ => pyRepr v

/-- `v == s` where `s` is a Python string literal (never true for non-strings). -/
def jIsStr (v : JVal) (s : String) : Bool :=
  match v with
  | JVal.str t => t == s
  | _ => false

/-- The ordered key list of a dict value (empty for non-dicts). -/
def jKeys : JVal → List String
  | JVal.obj fs => fs.map Prod.fst
  | _ => []

/-! ## `app/probes/contract.py` -/

/-- `STATUSES = ("OPERATIONAL", "DEGRADED", "DOWN", "INFO")` -/
def STATUSES : List String := ["OPERATIONAL", "DEGRADED", "DOWN", "INFO"]

/-- `REQUIRED_SERVICES_ORDER` from `contract.py`. -/
def REQUIRED_SERVICES_ORDER : List String :=
  ["kubernetes", "postgres", "minio", "ingress_tls", "airbyte", "dbt", "n8n", "zammad", "metabase"]

/-- `if status not in STATUSES: status = "INFO"` -/
def soStatus (status : String) : String :=
  if STATUSES.contains status then status else "INFO"

/-- `if not last_checked: last_checked = utc_now_iso()` -/
def soLastChecked (now last_checked : String) : String :=
  if last_checked = "" then now else last_checked

/-- One entry of `out_links`: `links.get(k) or ""`. -/
def soLink (links : List (String × JVal)) (k : String) : JVal :=
  pyOr (jLookup k links) (JVal.str "")

/-- The `evidence` normalization block of `service_obj`: either the kwargs
path (`evidence is None`) or the re-shaping of a supplied `evidence` value. -/
def soEvidence : Option JVal → Option String → Option JVal → JVal
  | some e, _, _ =>
    let e' := if e.isObj then e else JVal.obj [("type", JVal.str "INFO"), ("details", JVal.obj [])]
    JVal.obj [("type", pyOr (jGet e' "type") (JVal.str "INFO")),
              ("details", pyOr (jGet e' "details") (JVal.obj []))]
  | none, evidence_type, evidence_details =>
    JVal.obj [("type", JVal.str (match evidence_type with
                                 | some s => if s = "" then "INFO" else s
                                 | none => "INFO")),
              ("details", (match evidence_details with
                           | some v => pyOr v (JVal.obj [])
                           | none => JVal.obj []))]

/-- `service_obj` from `contract.py`: the canonical service record
constructor.  String-typed parameters mirror the Python annotations;
`links`/`evidence`/`evidence_details` values may be arbitrary `JVal`s. -/
def service_obj (now name status reason last_checked : String)
    (links : Option (List (String × JVal))) (evidence : Option JVal)
    (evidence_type : Option String) (evidence_details : Option JVal) : JVal :=
  let lks := links.getD []
  JVal.obj [
    ("service", JVal.str name),
    ("name", JVal.str name),
    ("status", JVal.str (soStatus status)),
    ("reason", JVal.str reason),
    ("last_checked", JVal.str (soLastChecked now last_checked)),
    ("links", JVal.obj [("ui", soLink lks "ui"), ("api", soLink lks "api")]),
    ("evidence", soEvidence evidence evidence_type evidence_details)]

/-- The `base` selection of `_unwrap_service`: wrapped / direct / non-dict. -/
def baseOf (blob : JVal) : JVal :=
  match blob with
  | JVal.obj _ => if (jGet blob "service").isObj then jGet blob "service" else blob
  | _ => JVal.obj []

/-- `base.get("service") if isinstance(base.get("service"), str) else None` -/
def svcNameField (base : JVal) : JVal :=
  match jGet base "service" with
  | JVal.str s => JVal.str s
  | _ => JVal.null

/-- `str(base.get("name") or (... legacy service string ...) or fallback_name)` -/
def rawName (blob : JVal) (fallback_name : String) : String :=
  pyStr (pyOr (jGet (baseOf blob) "name") (pyOr (svcNameField (baseOf blob)) (JVal.str fallback_name)))

/-- `str(base.get("status") or "DOWN")` -/
def rawStatus (blob : JVal) : String :=
  pyStr (pyOr (jGet (baseOf blob) "status") (JVal.str "DOWN"))

/-- `str(base.get("reason") or "")` -/
def rawReason (blob : JVal) : String :=
  pyStr (pyOr (jGet (baseOf blob) "reason") (JVal.str ""))

/-- `str(base.get("last_checked") or utc_now_iso())` -/
def rawLastChecked (now : String) (blob : JVal) : String :=
  pyStr (pyOr (jGet (baseOf blob) "last_checked") (JVal.str now))

/-- `base.get("links") if isinstance(base.get("links"), dict) else \x7b\x7d` -/
def rawLinks (blob : JVal) : List (String × JVal) :=
  match jGet (baseOf blob) "links" with
  | JVal.obj fs => fs
  | _ => []

/-- `base.get("evidence") if isinstance(base.get("evidence"), dict) else None` -/
def rawEvidence (blob : JVal) : Option JVal :=
  if (jGet (baseOf blob) "evidence").isObj then some (jGet (baseOf blob) "evidence") else none

/-- `_unwrap_service` from `contract.py`: normalize any probe blob into a
canonical record via `service_obj`. -/
def _unwrap_service (now : String) (blob : JVal) (fallback_name : String) : JVal :=
  service_obj now (rawName blob fallback_name) (rawStatus blob) (rawReason blob)
    (rawLastChecked now blob)
    (some [("ui", pyOr (jLookup "ui" (rawLinks blob)) (JVal.str "")),
           ("api", pyOr (jLookup "api" (rawLinks blob)) (JVal.str ""))])
    (rawEvidence blob) none none

/-- The general shape of every record emitted by `service_obj`: seven fixed
keys, two-key links, two-key evidence.  Used to state the idempotence of
the normalizer. -/
def canonicalRecord (N S R L : String) (U A T D : JVal) : JVal :=
  JVal.obj [
    ("service", JVal.str N),
    ("name", JVal.str N),
    ("status", JVal.str S),
    ("reason", JVal.str R),
    ("last_checked", JVal.str L),
    ("links", JVal.obj [("ui", U), ("api", A)]),
    ("evidence", JVal.obj [("type", T), ("details", D)])]

/-- `critical = {"kubernetes", "postgres", "ingress_tls"}` -/
def CRITICAL_SERVICES : List String := ["kubernetes", "postgres", "ingress_tls"]

/-- `compute_platform_status` from `contract.py`. -/
def compute_platform_status (now : String) (services : List JVal) : String :=
  let norm := services.map (fun s => _unwrap_service now s "unknown")
  if norm.any (fun s =>
      CRITICAL_SERVICES.any (fun c => jIsStr (jGet s "name") c) && jIsStr (jGet s "status") "DOWN")
  then "DOWN"
  else if norm.any (fun s => jIsStr (jGet s "status") "DOWN" || jIsStr (jGet s "status") "DEGRADED")
  then "DEGRADED"
  else "OPERATIONAL"

/-- Result shape of `operational_fraction`. -/
structure Fraction where
  x : Nat
  y : Nat
deriving DecidableEq

/-- `operational_fraction` from `contract.py`.  (`svc and ...` — a found
record is a nonempty dict, hence always truthy, so only the status test
remains.) -/
def operational_fraction (now : String) (services : List JVal) : Fraction :=
  let required := REQUIRED_SERVICES_ORDER
  if required.isEmpty then ⟨0, 0⟩
  else
    let norm := services.map (fun s => _unwrap_service now s "unknown")
    let x := required.foldl (fun acc r =>
      match norm.find? (fun d => jIsStr (jGet d "name") r) with
      | some svc => if jIsStr (jGet svc "status") "OPERATIONAL" then acc + 1 else acc
      | none => acc) 0
    ⟨x, required.length⟩

/-! ## Claim-side (spec-worded) definitions for the aggregator -/

/-- Name of the normalized record for `blob` (default fallback `"unknown"`,
as used by the aggregate functions). -/
def normName (blob : JVal) : String := rawName blob "unknown"

/-- Status of the normalized record for `blob`. -/
def normStatus (blob : JVal) : String := soStatus (rawStatus blob)

/-- Platform status as worded by the spec: DOWN when some input record
normalizes to a critical name with status DOWN; else DEGRADED when some
record normalizes to status DOWN or DEGRADED; else OPERATIONAL. -/
def claimPlatformStatus (services : List JVal) : String :=
  if ∃ s ∈ services, normName s ∈ CRITICAL_SERVICES ∧ normStatus s = "DOWN" then "DOWN"
  else if ∃ s ∈ services, normStatus s = "DOWN" ∨ normStatus s = "DEGRADED" then "DEGRADED"
  else "OPERATIONAL"

/-- The first normalized record named `r` (if any) has status OPERATIONAL. -/
def opPred (norm : List JVal) (r : String) : Bool :=
  match norm.find? (fun d => jIsStr (jGet d "name") r) with
  | some svc => jIsStr (jGet svc "status") "OPERATIONAL"
  | none => false

/-- Operational fraction as worded by the spec: `y` is the size of
`REQUIRED_SERVICES_ORDER` and `x` counts the required names whose first
matching normalized record has status exactly OPERATIONAL. -/
def claimOperationalFraction (now : String) (services : List JVal) : Fraction :=
  ⟨REQUIRED_SERVICES_ORDER.countP
      (opPred (services.map (fun s => _unwrap_service now s "unknown"))),
   REQUIRED_SERVICES_ORDER.length⟩

/-- A record whose normalized name (`stray`) is outside
`REQUIRED_SERVICES_ORDER`, with status DOWN. -/
def strayRecord : JVal := JVal.obj [("name", JVal.str "stray"), ("status", JVal.str "DOWN")]

/-! ## `app/probes/postgres_probe.py`

The probe functions run SQL over `information_schema.tables`; we embed that
backing table as an explicit list of rows (`List PgRow`) and translate the
SQL (filter / order by / limit / offset) into list operations. -/

/-- One row of `information_schema.tables`. -/
structure PgRow where
  table_schema : String
  table_name : String
  table_type : String
deriving DecidableEq

/-- Lexicographic `<` on strings as lists of characters (SQL `order by`). -/
def strLt : List Char → List Char → Bool
  | [], [] => false
  | [], _ :: _ => true
  | _ :: _, [] => false
  | a :: as, b :: bs => a < b || (a == b && strLt as bs)

/-- `order by table_schema, table_name` as a boolean "less or equal". -/
def rowLe (a b : PgRow) : Bool :=
  strLt a.table_schema.data b.table_schema.data ||
    (a.table_schema == b.table_schema && !strLt b.table_name.data a.table_name.data)

/-- Insertion into a list sorted by `rowLe`. -/
def insertRow (r : PgRow) : List PgRow → List PgRow
  | [] => [r]
  | x :: xs => if rowLe r x then r :: x :: xs else x :: insertRow r xs

/-- Insertion sort by `(table_schema, table_name)`. -/
def sortRows (l : List PgRow) : List PgRow := l.foldr insertRow []

/-- The shared `where` clause:
`table_type='BASE TABLE' and table_schema not in ('pg_catalog','information_schema')`. -/
def catalogMatching (db : List PgRow) : List PgRow :=
  db.filter (fun r =>
    r.table_type == "BASE TABLE" && !(["pg_catalog", "information_schema"].contains r.table_schema))

/-- `pagination` dict of the catalog endpoints. -/
structure Pagination where
  page : Int
  page_size : Int
  total : Int
deriving DecidableEq

/-- Result of `postgres_catalog_tables`: the selected `(schema, table)` rows
plus pagination. -/
structure CatalogPage where
  tables : List (String × String)
  pagination : Pagination
deriving DecidableEq

/-- `postgres_catalog_tables` from `postgres_probe.py` (live variant): count
all matching rows, then return one page of the ordered listing.
`page = max(int(page or 1), 1)`; `page_size = max(min(int(page_size or 50), 200), 1)`. -/
def postgres_catalog_tables (db : List PgRow) (page page_size : Int) : CatalogPage :=
  let page := max (if page = 0 then 1 else page) 1
  let page_size := max (min (if page_size = 0 then 50 else page_size) 200) 1
  let offset := (page - 1) * page_size
  let total := (Int.ofNat (catalogMatching db).length)
  let rows := ((sortRows (catalogMatching db)).drop offset.toNat).take page_size.toNat
  ⟨rows.map (fun r => (r.table_schema, r.table_name)), ⟨page, page_size, total⟩⟩

/-- A catalog state with 2001 matching base tables (more than the 2000 cap
the spec describes). -/
def bigCatalog : List PgRow := List.replicate 2001 ⟨"s", "t", "BASE TABLE"⟩

/-- Python `s.strip()`. -/
def pyStrip (s : String) : String :=
  String.mk (((s.data.dropWhile Char.isWhitespace).reverse.dropWhile Char.isWhitespace).reverse)

/-- `sub` occurs as a contiguous substring of `hay`. -/
def containsSub (sub : List Char) : List Char → Bool
  | [] => sub.isEmpty
  | h :: t => sub.isPrefixOf (h :: t) || containsSub sub t

/-- Python / SQL lower-casing, character by character. -/
def pyLower (s : String) : List Char :=
  s.data.map Char.toLower

/-- SQL `s ilike %q%`: case-insensitive substring match. -/
def ilike (q s : String) : Bool :=
  containsSub (pyLower q) (pyLower s)

/-- Result of `postgres_search`. -/
structure SearchResult where
  q : String
  matchesList : List (String × String)
deriving DecidableEq

/-- `postgres_search` from `postgres_probe.py` (live variant): strip the
query; an empty query returns no matches without touching the store;
otherwise filter + order + `limit 50`. -/
def postgres_search (db : List PgRow) (q : String) : SearchResult :=
  let q := pyStrip q
  if q = "" then ⟨q, []⟩
  else
    let rows := (sortRows ((catalogMatching db).filter
        (fun r => ilike q r.table_schema || ilike q r.table_name))).take 50
    ⟨q, rows.map (fun r => (r.table_schema, r.table_name))⟩

/-! ## `app/server.py` — the `/api/summary` handler

The handler body performs I/O (probes, catalog queries); we embed its
control flow: the `try` body either produces a response body or raises,
and the `except Exception` branch builds the fixed fallback body around
the exception text, still returning HTTP 200. -/

/-- The fallback JSON body built in the `except` branch of `summary()`. -/
def summaryFallback (now e : String) : JVal :=
  JVal.obj [
    ("generated_at", JVal.str now),
    ("platform_status", JVal.str "DOWN"),
    ("operational", JVal.obj [("x", JVal.num 0), ("y", JVal.num (Int.ofNat REQUIRED_SERVICES_ORDER.length))]),
    ("k8s", JVal.obj [
      ("workloads", JVal.obj [
        ("deployments", JVal.obj [("ready", JVal.num 0), ("total", JVal.num 0)]),
        ("pods", JVal.obj [("ready", JVal.num 0), ("total", JVal.num 0)]),
        ("statefulsets", JVal.obj [("ready", JVal.num 0), ("total", JVal.num 0)])]),
      ("restarts_total", JVal.num 0),
      ("ingresses", JVal.arr [])]),
    ("services", JVal.arr []),
    ("postgres", JVal.obj [("schemas_count", JVal.num 0), ("tables_count", JVal.num 0)]),
    ("proof", JVal.obj [("airbyte_last_sync", JVal.str ""), ("dbt_last_run", JVal.str ""),
                        ("data_availability", JVal.str "")]),
    ("links", JVal.obj []),
    ("assets", JVal.obj [("tables", JVal.arr []),
                         ("pagination", JVal.obj [("page", JVal.num 1), ("page_size", JVal.num 50),
                                                  ("total", JVal.num 0)])]),
    ("error", JVal.str e)]

/-- The `/api/summary` handler: `(status code, body)`; the `try` body is
abstracted as an `Except` value (its probes and catalog access are I/O). -/
def api_summary (now : String) (body : Except String JVal) : Nat × JVal :=
  match body with
  | Except.ok v => (200, v)
  | Except.error e => (200, summaryFallback now e)

/-! ## Helper lemmas about the value model -/

lemma toDigitsCore_length_le (b : Nat) :
    ∀ (f n : Nat) (acc : List Char), acc.length ≤ (Nat.toDigitsCore b f n acc).length := by
  intro f
  induction f with
  | zero => intro n acc; simp [Nat.toDigitsCore]
  | succ f ih =>
    intro n acc
    simp only [Nat.toDigitsCore]
    split
    · simp
    · exact le_trans (by simp) (ih _ _)

lemma natRepr_ne_empty (n : Nat) : Nat.repr n ≠ "" := by
  have h : 1 ≤ (Nat.toDigits 10 n).length := by
    unfold Nat.toDigits
    simp only [Nat.toDigitsCore]
    split
    · simp
    · exact le_trans (by simp) (toDigitsCore_length_le 10 _ _ _)
  intro hc
  have hd : (Nat.toDigits 10 n).asString.data = "".data := by
    rw [Nat.repr] at hc; rw [hc]
  simp [List.asString] at hd
  rw [hd] at h
  simp at h

lemma intRepr_ne_empty (n : Int) : Int.repr n ≠ "" := by
  cases n with
  | ofNat m => exact natRepr_ne_empty m
  | negSucc m =>
    show "-" ++ Nat.repr (m + 1) ≠ ""
    intro hc
    have := congrArg String.data hc
    simp at this

lemma append_ne_empty_left (s t : String) (h : s ≠ "") : s ++ t ≠ "" := by
  intro hc
  have hd := congrArg String.data hc
  simp at hd
  exact h (by cases s with | mk l => simp at hd; simp [hd.1])

/-- A truthy value never `str(...)`s to the empty string. -/
lemma truthy_pyStr_ne (v : JVal) (h : truthy v = true) : pyStr v ≠ "" := by
  cases v with
  | null => simp [truthy] at h
  | bool b =>
    cases b with
    | false => simp [truthy] at h
    | true => simp [pyStr, pyRepr]
  | num n =>
    show Int.repr n ≠ ""
    exact intRepr_ne_empty n
  | str s =>
    simp [truthy] at h
    simpa [pyStr] using h
  | arr l =>
    show "[" ++ pyReprList l ++ "]" ≠ ""
    exact append_ne_empty_left _ _ (append_ne_empty_left _ _ (by decide))
  | obj l =>
    show "\x7b" ++ pyReprFields l ++ "\x7d" ≠ ""
    exact append_ne_empty_left _ _ (append_ne_empty_left _ _ (by decide))

lemma pyOr_truthy (v d : JVal) (h : truthy v = true) : pyOr v d = v := by
  simp [pyOr, h]

lemma pyOr_falsy (v d : JVal) (h : truthy v = false) : pyOr v d = d := by
  simp [pyOr, h]

lemma truthy_pyOr_default (v d : JVal) (h : truthy d = true) : truthy (pyOr v d) = true := by
  by_cases hv : truthy v = true
  · rw [pyOr_truthy v d hv]; exact hv
  · rw [pyOr_falsy v d (by simpa using hv)]; exact h

/-- `pyOr` with an untruthy default is idempotent in its default. -/
lemma pyOr_pyOr_self (v d : JVal) (h : truthy d = false) : pyOr (pyOr v d) d = pyOr v d := by
  by_cases hv : truthy v = true
  · rw [pyOr_truthy v d hv, pyOr_truthy v d hv]
  · rw [pyOr_falsy v d (by simpa using hv), pyOr_falsy d d h]

lemma pyStr_pyOr_str_empty (s : String) : pyStr (pyOr (JVal.str s) (JVal.str "")) = s := by
  by_cases hs : s = ""
  · subst hs; rfl
  · rw [pyOr_truthy _ _ (by simpa [truthy] using hs)]; rfl

lemma jIsStr_str (t s : String) : jIsStr (JVal.str t) s = (t == s) := rfl

/-! ## Field access on normalized records -/

lemma jGet_unwrap_name (now : String) (blob : JVal) (fb : String) :
    jGet (_unwrap_service now blob fb) "name" = JVal.str (rawName blob fb) := rfl

lemma jGet_unwrap_status (now : String) (blob : JVal) (fb : String) :
    jGet (_unwrap_service now blob fb) "status" = JVal.str (soStatus (rawStatus blob)) := rfl

/-- The aggregate DOWN test over the normalized list, as a bounded ∃ over
the raw input list. -/
lemma any_crit_iff (now : String) (services : List JVal) :
    ((services.map (fun s => _unwrap_service now s "unknown")).any (fun s =>
      CRITICAL_SERVICES.any (fun c => jIsStr (jGet s "name") c) && jIsStr (jGet s "status") "DOWN") = true)
    ↔ ∃ s ∈ services, normName s ∈ CRITICAL_SERVICES ∧ normStatus s = "DOWN" := by
  simp [List.any_map, List.any_eq_true, jGet_unwrap_name, jGet_unwrap_status, jIsStr_str,
    normName, normStatus, Function.comp]

/-- The aggregate DEGRADED test over the normalized list, as a bounded ∃
over the raw input list. -/
lemma any_degraded_iff (now : String) (services : List JVal) :
    ((services.map (fun s => _unwrap_service now s "unknown")).any (fun s =>
      jIsStr (jGet s "status") "DOWN" || jIsStr (jGet s "status") "DEGRADED") = true)
    ↔ ∃ s ∈ services, normStatus s = "DOWN" ∨ normStatus s = "DEGRADED" := by
  simp [List.any_map, List.any_eq_true, jGet_unwrap_status, jIsStr_str, normStatus, Function.comp]

lemma foldl_if_count {α : Type} (p : α → Bool) (l : List α) :
    ∀ n : Nat, l.foldl (fun acc r => if p r then acc + 1 else acc) n = n + l.countP p := by
  induction l with
  | nil => intro n; simp
  | cons a t ih =>
    intro n
    simp only [List.foldl_cons, List.countP_cons]
    by_cases h : p a = true
    · rw [if_pos h, ih, h]; simp; omega
    · rw [if_neg h, ih]
      simp only [Bool.not_eq_true] at h
      rw [h]; simp

/-- `compute_platform_status` coincides with the spec-worded
`claimPlatformStatus` on every input and every clock value. -/
lemma platform_status_eq_claim (now : String) (services : List JVal) :
    compute_platform_status now services = claimPlatformStatus services := by
  have e1 := any_crit_iff now services
  have e2 := any_degraded_iff now services
  simp only [compute_platform_status, claimPlatformStatus]
  by_cases h1 : ∃ s ∈ services, normName s ∈ CRITICAL_SERVICES ∧ normStatus s = "DOWN"
  · rw [if_pos (e1.mpr h1), if_pos h1]
  · rw [if_neg (fun hb => h1 (e1.mp hb)), if_neg h1]
    by_cases h2 : ∃ s ∈ services, normStatus s = "DOWN" ∨ normStatus s = "DEGRADED"
    · rw [if_pos (e2.mpr h2), if_pos h2]
    · rw [if_neg (fun hb => h2 (e2.mp hb)), if_neg h2]

/-- `operational_fraction` coincides with the spec-worded
`claimOperationalFraction` on every input. -/
lemma op_fraction_eq_claim (now : String) (services : List JVal) :
    operational_fraction now services = claimOperationalFraction now services := by
  simp only [operational_fraction, claimOperationalFraction]
  rw [if_neg (by decide : ¬REQUIRED_SERVICES_ORDER.isEmpty = true)]
  have hbody : (fun (acc : Nat) (r : String) =>
      match (services.map (fun s => _unwrap_service now s "unknown")).find?
          (fun d => jIsStr (jGet d "name") r) with
      | some svc => if jIsStr (jGet svc "status") "OPERATIONAL" then acc + 1 else acc
      | none => acc) =
      (fun acc r => if opPred (services.map (fun s => _unwrap_service now s "unknown")) r
                    then acc + 1 else acc) := by
    funext acc r
    cases hf : (services.map (fun s => _unwrap_service now s "unknown")).find?
        (fun d => jIsStr (jGet d "name") r) with
    | none => simp [opPred, hf]
    | some svc => simp [opPred, hf]
  rw [hbody, foldl_if_count]
  simp

/-- Claim C1: for every list of service records, `compute_platform_status`
returns DOWN when some record normalizes to a critical name
(kubernetes / postgres / ingress_tls) with status DOWN; otherwise DEGRADED
when any record normalizes to status DOWN or DEGRADED; otherwise
OPERATIONAL — i.e. it coincides with the spec-worded `claimPlatformStatus`
on every input and every clock value. -/
theorem compute_platform_status_matches_spec (now : String) (services : List JVal) :
    compute_platform_status now services = claimPlatformStatus services :=
  platform_status_eq_claim now services

/-- Claim C2: `operational_fraction` returns `y = 9` (the size of
`REQUIRED_SERVICES_ORDER`) and `x` = the number of required names whose
first matching normalized record has status exactly OPERATIONAL (first
match per name, so duplicate records never double-count); the empty list
yields `{x := 0, y := 9}`. -/
theorem operational_fraction_matches_spec (now : String) (services : List JVal) :
    operational_fraction now services = claimOperationalFraction now services
    ∧ (operational_fraction now services).y = 9
    ∧ operational_fraction now [] = ⟨0, 9⟩ :=
  ⟨op_fraction_eq_claim now services, rfl, rfl⟩

/-! ## Claim theorems: the canonical service contract -/

/-- Claim C3: the canonical constructor returns a status from the four-value
enum unchanged and coerces every other input string to INFO (it never
rejects an invalid status — the function is total). -/
theorem service_obj_status_coercion (now name status reason lc : String)
    (links : Option (List (String × JVal))) (evidence : Option JVal)
    (et : Option String) (ed : Option JVal) :
    (status ∈ STATUSES →
      jGet (service_obj now name status reason lc links evidence et ed) "status" = JVal.str status)
    ∧ (status ∉ STATUSES →
      jGet (service_obj now name status reason lc links evidence et ed) "status" = JVal.str "INFO") := by
  constructor
  · intro h
    show JVal.str (soStatus status) = JVal.str status
    simp [soStatus, h]
  · intro h
    show JVal.str (soStatus status) = JVal.str "INFO"
    simp [soStatus, h]

/-- Witness for C3 at concrete inputs: a valid status is preserved, an
invalid one becomes INFO. -/
theorem service_obj_status_coercion_witness :
    jGet (service_obj "t0" "svc" "DEGRADED" "" "" none none none none) "status" = JVal.str "DEGRADED"
    ∧ jGet (service_obj "t0" "svc" "bogus" "" "" none none none none) "status" = JVal.str "INFO" :=
  ⟨(service_obj_status_coercion "t0" "svc" "DEGRADED" "" "" none none none none).1 (by decide),
   (service_obj_status_coercion "t0" "svc" "bogus" "" "" none none none none).2 (by decide)⟩

/-- Claim C4, amended: for every input the record built by `service_obj` has
exactly the keys service/name/status/reason/last_checked/links/evidence,
`links` has exactly the keys ui/api, `evidence` has exactly the keys
type/details — but a mapping-typed `evidence` has its `details` value
passed through `or \x7b\x7d`, which replaces only falsy values (None, empty
containers, zero, False) by the empty mapping; a truthy non-mapping
`details` survives unchanged. -/
theorem service_obj_shape (now name status reason lc : String)
    (links : Option (List (String × JVal))) (evidence : Option JVal)
    (et : Option String) (ed : Option JVal) :
    jKeys (service_obj now name status reason lc links evidence et ed)
      = ["service", "name", "status", "reason", "last_checked", "links", "evidence"]
    ∧ jKeys (jGet (service_obj now name status reason lc links evidence et ed) "links") = ["ui", "api"]
    ∧ jKeys (jGet (service_obj now name status reason lc links evidence et ed) "evidence") = ["type", "details"]
    ∧ (∀ e, evidence = some e → e.isObj = true →
        jGet (jGet (service_obj now name status reason lc links evidence et ed) "evidence") "details"
          = pyOr (jGet e "details") (JVal.obj [])) := by
  refine ⟨rfl, rfl, ?_, ?_⟩
  · cases evidence with
    | none => rfl
    | some e =>
      show jKeys (soEvidence (some e) et ed) = _
      simp only [soEvidence]
      by_cases h : e.isObj = true <;> simp [h, jKeys]
  · intro e he hobj
    subst he
    show jGet (soEvidence (some e) et ed) "details" = _
    simp [soEvidence, hobj, jGet, jLookup]

/-- Witness for C4 at a concrete garbage input: the key shape holds and a
falsy `details` (None) is replaced by the empty mapping. -/
theorem service_obj_shape_witness :
    jKeys (service_obj "t0" "n" "DOWN" "" "" none (some (JVal.obj [("details", JVal.null)])) none none)
      = ["service", "name", "status", "reason", "last_checked", "links", "evidence"]
    ∧ jGet (jGet (service_obj "t0" "n" "DOWN" "" "" none (some (JVal.obj [("details", JVal.null)])) none none)
        "evidence") "details" = JVal.obj [] := by
  refine ⟨(service_obj_shape "t0" "n" "DOWN" "" "" none (some (JVal.obj [("details", JVal.null)])) none none).1, ?_⟩
  have h := (service_obj_shape "t0" "n" "DOWN" "" "" none
    (some (JVal.obj [("details", JVal.null)])) none none).2.2.2 (JVal.obj [("details", JVal.null)]) rfl rfl
  rw [h]; rfl

/-- Counterexample to C4 as stated: a truthy non-mapping `details`
(the string "oops") is NOT replaced by an empty mapping — it is returned
unchanged inside the evidence blob. -/
theorem service_obj_nonmapping_details_counterexample :
    jGet (jGet (service_obj "t0" "svc" "OPERATIONAL" "" "" none
        (some (JVal.obj [("type", JVal.str "t"), ("details", JVal.str "oops")])) none none)
      "evidence") "details" = JVal.str "oops"
    ∧ (JVal.str "oops").isObj = false := ⟨rfl, rfl⟩

/-! ## Claim theorems: the `/api/summary` handler -/

/-- Claim C7: whatever exception the handler body raises, `/api/summary`
returns HTTP 200 with platform_status DOWN, empty services/assets/links,
operational `x = 0, y = |REQUIRED_SERVICES_ORDER|` (= 9), and the
exception text in `error`. -/
theorem api_summary_never_fails (now e : String) :
    (api_summary now (Except.error e)).1 = 200
    ∧ jGet (api_summary now (Except.error e)).2 "platform_status" = JVal.str "DOWN"
    ∧ jGet (api_summary now (Except.error e)).2 "services" = JVal.arr []
    ∧ jGet (api_summary now (Except.error e)).2 "operational"
        = JVal.obj [("x", JVal.num 0), ("y", JVal.num (Int.ofNat REQUIRED_SERVICES_ORDER.length))]
    ∧ REQUIRED_SERVICES_ORDER.length = 9
    ∧ jGet (api_summary now (Except.error e)).2 "links" = JVal.obj []
    ∧ jGet (jGet (api_summary now (Except.error e)).2 "assets") "tables" = JVal.arr []
    ∧ jGet (api_summary now (Except.error e)).2 "error" = JVal.str e :=
  ⟨rfl, rfl, rfl, rfl, rfl, rfl, rfl, rfl⟩

/-! ## Claim theorems: the postgres catalog -/

lemma catalog_total_eq (db : List PgRow) (page page_size : Int) :
    (postgres_catalog_tables db page page_size).pagination.total
      = Int.ofNat (catalogMatching db).length := rfl

/-- Counterexample to C8 as stated: on a catalog with 2001 matching base
tables, the live `postgres_catalog_tables` reports `total = 2001`, not a
2000-capped value. -/
theorem postgres_catalog_cap_counterexample :
    2000 < (catalogMatching bigCatalog).length
    ∧ (postgres_catalog_tables bigCatalog 1 50).pagination.total = 2001 := by
  have hm : catalogMatching bigCatalog = bigCatalog := by
    unfold catalogMatching bigCatalog
    rw [List.filter_replicate, if_pos (by decide)]
  have hl : (catalogMatching bigCatalog).length = 2001 := by
    rw [hm]; unfold bigCatalog; rw [List.length_replicate]
  constructor
  · rw [hl]; norm_num
  · rw [catalog_total_eq, hl]; rfl

/-- Claim C8, amended: the live `postgres_catalog_tables` applies no hard
cap — `pagination.total` always equals the true number of matching rows
in the catalog, however large (the 2000-row cap exists only in the
superseded `portal-api.bak` variant). -/
theorem postgres_catalog_total_uncapped (db : List PgRow) (page page_size : Int) :
    (postgres_catalog_tables db page page_size).pagination.total
      = Int.ofNat (catalogMatching db).length := rfl

/-- Claim C9: a query that strips to the empty string yields an empty match
list, with a result that does not depend on the backing catalog at all
(the right-hand side is a constant), and no exception. -/
theorem postgres_search_empty_query (db : List PgRow) (q : String) (h : pyStrip q = "") :
    postgres_search db q = ⟨"", []⟩ := by
  simp [postgres_search, h]

/-- Witness for C9 at a concrete whitespace-only query. -/
theorem postgres_search_empty_query_witness :
    pyStrip "   " = "" ∧ postgres_search [⟨"public", "users", "BASE TABLE"⟩] "   " = ⟨"", []⟩ :=
  ⟨by decide, postgres_search_empty_query [⟨"public", "users", "BASE TABLE"⟩] "   " (by decide)⟩

/-! ## Claim theorems: totality over garbage elements -/

lemma baseOf_nonobj (v : JVal) (hv : v.isObj = false) : baseOf v = JVal.obj [] := by
  cases v <;> first | rfl | simp [JVal.isObj] at hv

lemma rawName_nonobj (v : JVal) (hv : v.isObj = false) : rawName v "unknown" = "unknown" := by
  unfold rawName
  rw [baseOf_nonobj v hv]
  rfl

lemma rawStatus_nonobj (v : JVal) (hv : v.isObj = false) : rawStatus v = "DOWN" := by
  unfold rawStatus
  rw [baseOf_nonobj v hv]
  rfl

/-- Claim C10: a non-mapping element (None, string, number, list) is
normalized to a record named "unknown" with status DOWN (so the aggregate
functions are total over it — the Lean embedding needs no partiality),
and any list containing such an element yields platform status DOWN or
DEGRADED, never OPERATIONAL. -/
theorem nonmapping_records_force_degradation (now : String) (v : JVal) (hv : v.isObj = false)
    (l : List JVal) (hl : v ∈ l) :
    jGet (_unwrap_service now v "unknown") "name" = JVal.str "unknown"
    ∧ jGet (_unwrap_service now v "unknown") "status" = JVal.str "DOWN"
    ∧ (compute_platform_status now l = "DOWN" ∨ compute_platform_status now l = "DEGRADED") := by
  have hn := rawName_nonobj v hv
  have hs := rawStatus_nonobj v hv
  refine ⟨by rw [jGet_unwrap_name, hn], by rw [jGet_unwrap_status, hs]; rfl, ?_⟩
  simp only [compute_platform_status]
  have hb2 : (l.map (fun s => _unwrap_service now s "unknown")).any
      (fun s => jIsStr (jGet s "status") "DOWN" || jIsStr (jGet s "status") "DEGRADED") = true := by
    rw [List.any_eq_true]
    refine ⟨_unwrap_service now v "unknown", List.mem_map.mpr ⟨v, hl, rfl⟩, ?_⟩
    rw [jGet_unwrap_status, hs]
    rfl
  by_cases hb1 : (l.map (fun s => _unwrap_service now s "unknown")).any
      (fun s => CRITICAL_SERVICES.any (fun c => jIsStr (jGet s "name") c)
        && jIsStr (jGet s "status") "DOWN") = true
  · left; rw [if_pos hb1]
  · right; rw [if_neg hb1, if_pos hb2]

/-- Witness for C10 at the concrete non-mapping element None. -/
theorem nonmapping_records_force_degradation_witness :
    (JVal.null).isObj = false ∧ JVal.null ∈ [JVal.null]
    ∧ (jGet (_unwrap_service "t0" JVal.null "unknown") "name" = JVal.str "unknown"
       ∧ jGet (_unwrap_service "t0" JVal.null "unknown") "status" = JVal.str "DOWN"
       ∧ (compute_platform_status "t0" [JVal.null] = "DOWN"
          ∨ compute_platform_status "t0" [JVal.null] = "DEGRADED")) :=
  ⟨rfl, by simp, nonmapping_records_force_degradation "t0" JVal.null rfl [JVal.null] (by simp)⟩

/-! ## Claim theorems: non-required services -/

/-- Claim C6, amended: appending a record whose normalized name is outside
`REQUIRED_SERVICES_ORDER` never changes `operational_fraction`; it changes
`compute_platform_status` only through the any-DOWN/DEGRADED clause — if
the appended record's normalized status is neither DOWN nor DEGRADED the
platform status is unchanged as well. -/
theorem nonrequired_append_effect (now : String) (services : List JVal) (r : JVal)
    (hname : normName r ∉ REQUIRED_SERVICES_ORDER) :
    operational_fraction now (services ++ [r]) = operational_fraction now services
    ∧ (normStatus r ≠ "DOWN" → normStatus r ≠ "DEGRADED" →
        compute_platform_status now (services ++ [r]) = compute_platform_status now services) := by
  have hname' : rawName r "unknown" ∉ REQUIRED_SERVICES_ORDER := hname
  constructor
  · rw [op_fraction_eq_claim, op_fraction_eq_claim]
    simp only [claimOperationalFraction]
    congr 1
    apply List.countP_congr
    intro req hreq
    simp only [List.map_append, List.map_cons, List.map_nil]
    unfold opPred
    rw [List.find?_append]
    have hpu : jIsStr (jGet (_unwrap_service now r "unknown") "name") req = false := by
      rw [jGet_unwrap_name, jIsStr_str, beq_eq_false_iff_ne]
      exact fun hEq => hname' (hEq ▸ hreq)
    have hfalse : (List.find? (fun d => jIsStr (jGet d "name") req)
        [_unwrap_service now r "unknown"]) = none := by
      simp [List.find?, hpu]
    rw [hfalse, Option.or_none]
  · intro h1 h2
    simp only [compute_platform_status, List.map_append, List.map_cons, List.map_nil,
      List.any_append]
    have hsub : ∀ c ∈ CRITICAL_SERVICES, c ∈ REQUIRED_SERVICES_ORDER := by decide
    have e1 : ([_unwrap_service now r "unknown"].any (fun s =>
        CRITICAL_SERVICES.any (fun c => jIsStr (jGet s "name") c)
          && jIsStr (jGet s "status") "DOWN")) = false := by
      simp only [List.any_cons, List.any_nil, Bool.or_false]
      rw [jGet_unwrap_name]
      have hcrit : CRITICAL_SERVICES.any (fun c => jIsStr (JVal.str (rawName r "unknown")) c) = false := by
        rw [Bool.eq_false_iff]
        intro hany
        rcases List.any_eq_true.mp hany with ⟨c, hc, hEq⟩
        rw [jIsStr_str, beq_iff_eq] at hEq
        exact hname' (hEq ▸ hsub c hc)
      rw [hcrit]
      rfl
    have e2 : ([_unwrap_service now r "unknown"].any (fun s =>
        jIsStr (jGet s "status") "DOWN" || jIsStr (jGet s "status") "DEGRADED")) = false := by
      simp only [List.any_cons, List.any_nil, Bool.or_false]
      rw [jGet_unwrap_status, jIsStr_str, jIsStr_str]
      have hd1 : (soStatus (rawStatus r) == "DOWN") = false := by
        rw [beq_eq_false_iff_ne]; exact h1
      have hd2 : (soStatus (rawStatus r) == "DEGRADED") = false := by
        rw [beq_eq_false_iff_ne]; exact h2
      rw [hd1, hd2]
      rfl
    rw [e1, e2]
    simp only [Bool.or_false]

/-- Witness for C6 at a concrete non-required OPERATIONAL record. -/
theorem nonrequired_append_effect_witness :
    normName (JVal.obj [("name", JVal.str "stray"), ("status", JVal.str "OPERATIONAL")])
      ∉ REQUIRED_SERVICES_ORDER
    ∧ operational_fraction "t0"
        ([JVal.obj [("name", JVal.str "postgres"), ("status", JVal.str "OPERATIONAL")]]
          ++ [JVal.obj [("name", JVal.str "stray"), ("status", JVal.str "OPERATIONAL")]])
      = operational_fraction "t0"
          [JVal.obj [("name", JVal.str "postgres"), ("status", JVal.str "OPERATIONAL")]]
    ∧ compute_platform_status "t0"
        ([JVal.obj [("name", JVal.str "postgres"), ("status", JVal.str "OPERATIONAL")]]
          ++ [JVal.obj [("name", JVal.str "stray"), ("status", JVal.str "OPERATIONAL")]])
      = compute_platform_status "t0"
          [JVal.obj [("name", JVal.str "postgres"), ("status", JVal.str "OPERATIONAL")]] := by
  have h := nonrequired_append_effect "t0"
    [JVal.obj [("name", JVal.str "postgres"), ("status", JVal.str "OPERATIONAL")]]
    (JVal.obj [("name", JVal.str "stray"), ("status", JVal.str "OPERATIONAL")]) (by decide)
  exact ⟨by decide, h.1, h.2 (by decide) (by decide)⟩

/-- Counterexample to C6 as stated: appending a non-required DOWN record
flips the platform status from OPERATIONAL to DEGRADED, so records outside
`REQUIRED_SERVICES_ORDER` do affect `compute_platform_status`. -/
theorem nonrequired_append_counterexample :
    normName strayRecord ∉ REQUIRED_SERVICES_ORDER
    ∧ compute_platform_status "t0" [] = "OPERATIONAL"
    ∧ compute_platform_status "t0" ([] ++ [strayRecord]) = "DEGRADED" :=
  ⟨by decide, rfl, rfl⟩

/-! ## Claim theorems: idempotence of the normalizer -/

lemma soStatus_contains (s : String) : STATUSES.contains (soStatus s) = true := by
  unfold soStatus
  by_cases h : STATUSES.contains s = true
  · rw [if_pos h]; exact h
  · rw [if_neg h]; decide

/-- The resolved name is empty only when the fallback itself was empty. -/
lemma rawName_empty (blob : JVal) (fb : String) (h : rawName blob fb = "") : fb = "" := by
  unfold rawName at h
  by_cases t1 : truthy (jGet (baseOf blob) "name") = true
  · rw [pyOr_truthy _ _ t1] at h
    exact absurd h (truthy_pyStr_ne _ t1)
  · rw [pyOr_falsy _ _ (by simpa using t1)] at h
    by_cases t2 : truthy (svcNameField (baseOf blob)) = true
    · rw [pyOr_truthy _ _ t2] at h
      exact absurd h (truthy_pyStr_ne _ t2)
    · rw [pyOr_falsy _ _ (by simpa using t2)] at h
      exact h

lemma roundtrip_name (N fb : String) (hN : N = "" → fb = "") :
    pyStr (pyOr (JVal.str N) (pyOr (JVal.str N) (JVal.str fb))) = N := by
  by_cases h : N = ""
  · subst h
    rw [pyOr_falsy _ _ (by decide), pyOr_falsy _ _ (by decide), hN rfl]
    rfl
  · rw [pyOr_truthy _ _ (by simp [truthy, h])]
    rfl

lemma roundtrip_status (S : String) (hS : STATUSES.contains S = true) :
    soStatus (pyStr (pyOr (JVal.str S) (JVal.str "DOWN"))) = S := by
  have hne : S ≠ "" := by
    intro hc
    subst hc
    exact absurd hS (by decide)
  rw [pyOr_truthy _ _ (by simp [truthy, hne])]
  show soStatus S = S
  unfold soStatus
  rw [if_pos hS]

lemma roundtrip_lc (now L : String) (hL : L = "" → now = "") :
    soLastChecked now (pyStr (pyOr (JVal.str L) (JVal.str now))) = L := by
  by_cases h : L = ""
  · have hnow := hL h
    subst h
    rw [hnow]
    rfl
  · rw [pyOr_truthy _ _ (by simp [truthy, h])]
    show soLastChecked now L = L
    unfold soLastChecked
    rw [if_neg h]

/-- A canonical record whose components satisfy the invariants `service_obj`
guarantees is a fixed point of the normalizer. -/
lemma unwrap_canonical (now fb N S R L : String) (U A T D : JVal)
    (hN : N = "" → fb = "")
    (hS : STATUSES.contains S = true)
    (hL : L = "" → now = "")
    (hU : pyOr U (JVal.str "") = U) (hA : pyOr A (JVal.str "") = A)
    (hT : truthy T = true) (hD : pyOr D (JVal.obj []) = D) :
    _unwrap_service now (canonicalRecord N S R L U A T D) fb
      = canonicalRecord N S R L U A T D := by
  have hname : rawName (canonicalRecord N S R L U A T D) fb = N := by
    show pyStr (pyOr (JVal.str N) (pyOr (JVal.str N) (JVal.str fb))) = N
    exact roundtrip_name N fb hN
  have hstat : soStatus (rawStatus (canonicalRecord N S R L U A T D)) = S := by
    show soStatus (pyStr (pyOr (JVal.str S) (JVal.str "DOWN"))) = S
    exact roundtrip_status S hS
  have hreason : rawReason (canonicalRecord N S R L U A T D) = R := by
    show pyStr (pyOr (JVal.str R) (JVal.str "")) = R
    exact pyStr_pyOr_str_empty R
  have hlc : soLastChecked now (rawLastChecked now (canonicalRecord N S R L U A T D)) = L := by
    show soLastChecked now (pyStr (pyOr (JVal.str L) (JVal.str now))) = L
    exact roundtrip_lc now L hL
  have hui : pyOr (pyOr (jLookup "ui" (rawLinks (canonicalRecord N S R L U A T D))) (JVal.str ""))
      (JVal.str "") = U := by
    show pyOr (pyOr U (JVal.str "")) (JVal.str "") = U
    rw [pyOr_pyOr_self _ _ (by decide), hU]
  have hapi : pyOr (pyOr (jLookup "api" (rawLinks (canonicalRecord N S R L U A T D))) (JVal.str ""))
      (JVal.str "") = A := by
    show pyOr (pyOr A (JVal.str "")) (JVal.str "") = A
    rw [pyOr_pyOr_self _ _ (by decide), hA]
  have hev : soEvidence (rawEvidence (canonicalRecord N S R L U A T D)) none none
      = JVal.obj [("type", T), ("details", D)] := by
    show JVal.obj [("type", pyOr T (JVal.str "INFO")), ("details", pyOr D (JVal.obj []))]
      = JVal.obj [("type", T), ("details", D)]
    rw [pyOr_truthy T _ hT, hD]
  show JVal.obj [
    ("service", JVal.str (rawName (canonicalRecord N S R L U A T D) fb)),
    ("name", JVal.str (rawName (canonicalRecord N S R L U A T D) fb)),
    ("status", JVal.str (soStatus (rawStatus (canonicalRecord N S R L U A T D)))),
    ("reason", JVal.str (rawReason (canonicalRecord N S R L U A T D))),
    ("last_checked", JVal.str (soLastChecked now (rawLastChecked now (canonicalRecord N S R L U A T D)))),
    ("links", JVal.obj [
      ("ui", pyOr (pyOr (jLookup "ui" (rawLinks (canonicalRecord N S R L U A T D))) (JVal.str ""))
        (JVal.str "")),
      ("api", pyOr (pyOr (jLookup "api" (rawLinks (canonicalRecord N S R L U A T D))) (JVal.str ""))
        (JVal.str ""))]),
    ("evidence", soEvidence (rawEvidence (canonicalRecord N S R L U A T D)) none none)]
    = canonicalRecord N S R L U A T D
  rw [hname, hstat, hreason, hlc, hui, hapi, hev]
  rfl

/-- Claim C5: with the clock held fixed, the normalizer is idempotent —
normalizing an already-normalized record changes nothing, for every raw
probe input and every fallback name. -/
theorem normalize_idempotent (now : String) (blob : JVal) (fb : String) :
    _unwrap_service now (_unwrap_service now blob fb) fb = _unwrap_service now blob fb := by
  have hev : ∃ T D, soEvidence (rawEvidence blob) none none = JVal.obj [("type", T), ("details", D)]
      ∧ truthy T = true ∧ pyOr D (JVal.obj []) = D := by
    cases rawEvidence blob with
    | none => exact ⟨JVal.str "INFO", JVal.obj [], rfl, rfl, rfl⟩
    | some e =>
      exact ⟨pyOr (jGet (if e.isObj = true then e
                else JVal.obj [("type", JVal.str "INFO"), ("details", JVal.obj [])]) "type")
              (JVal.str "INFO"),
             pyOr (jGet (if e.isObj = true then e
                else JVal.obj [("type", JVal.str "INFO"), ("details", JVal.obj [])]) "details")
              (JVal.obj []),
             rfl, truthy_pyOr_default _ _ (by decide), pyOr_pyOr_self _ _ (by decide)⟩
  obtain ⟨T, D, hTD, hT, hD⟩ := hev
  have hy : _unwrap_service now blob fb = canonicalRecord (rawName blob fb)
      (soStatus (rawStatus blob)) (rawReason blob) (soLastChecked now (rawLastChecked now blob))
      (pyOr (jLookup "ui" (rawLinks blob)) (JVal.str ""))
      (pyOr (jLookup "api" (rawLinks blob)) (JVal.str "")) T D := by
    show JVal.obj [
      ("service", JVal.str (rawName blob fb)),
      ("name", JVal.str (rawName blob fb)),
      ("status", JVal.str (soStatus (rawStatus blob))),
      ("reason", JVal.str (rawReason blob)),
      ("last_checked", JVal.str (soLastChecked now (rawLastChecked now blob))),
      ("links", JVal.obj [
        ("ui", pyOr (pyOr (jLookup "ui" (rawLinks blob)) (JVal.str "")) (JVal.str "")),
        ("api", pyOr (pyOr (jLookup "api" (rawLinks blob)) (JVal.str "")) (JVal.str ""))]),
      ("evidence", soEvidence (rawEvidence blob) none none)] = _
    rw [hTD, pyOr_pyOr_self (jLookup "ui" (rawLinks blob)) (JVal.str "") (by decide),
        pyOr_pyOr_self (jLookup "api" (rawLinks blob)) (JVal.str "") (by decide)]
    rfl
  have hLinv : soLastChecked now (rawLastChecked now blob) = "" → now = "" := by
    unfold soLastChecked
    by_cases h : rawLastChecked now blob = ""
    · rw [if_pos h]; exact id
    · rw [if_neg h]; intro hc; exact absurd hc h
  rw [hy]
  exact unwrap_canonical now fb _ _ _ _ _ _ _ _ (rawName_empty blob fb)
    (soStatus_contains _) hLinv (pyOr_pyOr_self _ _ (by decide))
    (pyOr_pyOr_self _ _ (by decide)) hT hD
